import Mathlib

/-!
Verification of the BloomWatch HLS tile-fetch pipeline
(`innovators_crew_bloomwatch_reflex.py`).

This file gives a shallow embedding of the pipeline's pure core and of its
stateful control flow, and proves properties about the embedding.  The
embedding conventions are:

* Python floats that only enter the claims through order/equality reasoning
  are modelled as `ℚ` (coordinates, pixel values); the trigonometric buffer
  computation, which the claims quantify over real latitudes, is modelled
  over `ℝ`.
* Dates and datetimes are modelled as integers (days for the search-window
  arithmetic, microseconds since the Unix epoch for acquisition
  timestamps).
* Remote calls are modelled by their observable results, supplied as
  explicit environment values: each catalog-search strategy is an
  `Except Unit (List Item)` (an exception or a feature list), each asset's
  preflight probe is an `Option Nat` (an HTTP status, or `none` when the
  probe itself raised and was caught), and each asset's windowed read is an
  abstract array token.
* The Reflex event handler `State.fetch_tile` is modelled as a function
  from an environment and the relevant state fields to the updated state
  fields plus the list of files it writes.  Only the final state is
  observable (the handler contains no `yield`), so transient status
  assignments that are always overwritten before returning are not
  threaded through.
-/

/-! ## Band taxonomy (`S30_BANDS`, `L30_BANDS`, `_bands_for_collection`) -/

/-- Source: `S30_BANDS = ["B02", "B03", "B04", "B8A", "B11", "B12"]`. -/
def S30_BANDS : List String := ["B02", "B03", "B04", "B8A", "B11", "B12"]

/-- Source: `L30_BANDS = ["B02", "B03", "B04", "B05", "B06", "B07"]`. -/
def L30_BANDS : List String := ["B02", "B03", "B04", "B05", "B06", "B07"]

/-- Python `str.startswith`, on the underlying character lists. -/
def startswith (s p : String) : Bool := p.data.isPrefixOf s.data

/-- Source: `_bands_for_collection(coll_id)` returns
`S30_BANDS if coll_id.startswith("HLSS30") else L30_BANDS`. -/
def bands_for_collection (coll_id : String) : List String :=
  if startswith coll_id "HLSS30" then S30_BANDS else L30_BANDS

theorem bands_for_collection_length (coll_id : String) :
    (bands_for_collection coll_id).length = 6 := by
  unfold bands_for_collection
  split <;> rfl

/-! ## Acquisition items

An `Item` models one STAC feature as the pipeline observes it: its
collection identifier, the parsed `properties.datetime` (`none` when
`datetime.fromisoformat` raised inside `_dt_of`), and its band assets.
Each `AssetRef` carries the observable outcome of the per-band preflight
probe (`probe = some s` for an HTTP response with status `s`, `none` when
`requests.get` raised and the exception was caught) and an abstract token
standing for the array produced by the windowed raster read. -/

structure AssetRef where
  probe : Option Nat
  data : Int
deriving DecidableEq, Repr

structure Item where
  coll : String
  dt : Option Int
  assets : List (String × AssetRef)
deriving DecidableEq, Repr

/-! ## Catalog-search cascade (`_search_hls_items`)

The four strategies (POST point-intersect, POST small-bbox, per-collection
items GET, granule-metadata fallback) are modelled by their outcomes
`s1 s2 s3 s4 : Except Unit (List Item)`: `.error ()` when the stage's
transport or parse raised (caught and logged in the source), `.ok l` when
it produced the feature list `l` (for stage 4, `l` is the fabricated
minimal feature list built from the granule hits; no hits gives `.ok []`).

The control flow mirrors the source exactly: stages 1 and 2 fall through
both on exception and on an empty result; stage 3's `try` block ends in
`return feats_all`, so a stage-3 success returns its result even when it
is empty, and stage 4 (which lives in stage 3's `except` handler) runs
only when stage 3 raised. -/

/-- Stages 3 and 4 of `_search_hls_items`: the per-collection GET returns
its concatenated features unconditionally on success; on exception the
granule fallback returns its fabricated features, or `[]` on its own
exception (or no hits). -/
def stage34 (s3 s4 : Except Unit (List Item)) : List Item :=
  match s3 with
  | .ok feats_all => feats_all
  | .error _ =>
    match s4 with
    | .ok feats => feats
    | .error _ => []

/-- Stage 2 of `_search_hls_items`: the small-bbox POST returns its
features when non-empty; otherwise (empty or exception) the cascade
proceeds to stages 3/4. -/
def stage2 (s2 s3 s4 : Except Unit (List Item)) : List Item :=
  match s2 with
  | .ok feats => if feats.isEmpty then stage34 s3 s4 else feats
  | .error _ => stage34 s3 s4

/-- The full strategy cascade of `_search_hls_items` (everything after the
window computation): the point-intersect POST returns its features when
non-empty; otherwise the cascade proceeds. -/
def cascade (s1 s2 s3 s4 : Except Unit (List Item)) : List Item :=
  match s1 with
  | .ok feats => if feats.isEmpty then stage2 s2 s3 s4 else feats
  | .error _ => stage2 s2 s3 s4

/-- Spec-modelled comparison point, following the claim's words: attempt
the four strategies in order and let the first non-empty result win,
returning `[]` only when all four stages yield nothing. -/
def firstNonEmpty (s : Except Unit (List Item)) (k : List Item) : List Item :=
  match s with
  | .ok l => if l.isEmpty then k else l
  | .error _ => k

/-- Spec-modelled cascade per the claim: first non-empty result of the
four stages wins. -/
def cascadeSpec (s1 s2 s3 s4 : Except Unit (List Item)) : List Item :=
  firstNonEmpty s1 (firstNonEmpty s2 (firstNonEmpty s3 (firstNonEmpty s4 [])))

/-- A minimal fabricated granule feature, as stage 4 would synthesize. -/
def gItem : Item := { coll := "HLSS30.v2.0", dt := some 0, assets := [] }

/-- C2 counterexample: when stages 1 and 2 come back empty, stage 3
succeeds with an empty feature list, and stage 4 would have returned a
non-empty fabricated list, the code returns the empty sequence from stage
3 without ever attempting stage 4 — so the first non-empty result does
not win, and an empty sequence is returned although not all four stages
yielded nothing. -/
theorem cascade_counterexample :
    cascade (Except.ok []) (Except.ok []) (Except.ok []) (Except.ok [gItem]) = [] ∧
    cascadeSpec (Except.ok []) (Except.ok []) (Except.ok []) (Except.ok [gItem]) = [gItem] ∧
    ([gItem] : List Item) ≠ [] :=
  ⟨rfl, rfl, List.cons_ne_nil _ _⟩

/-- C2 amended: the four strategies are attempted strictly in order and
every stage failure is caught (the function always returns a list, never
raises).  Stages 1 and 2 fall through to the next stage both on a
transport/parse failure and on an empty result; a stage-3 success is
returned as the final result even when it is empty, without consulting
stage 4; stage 4 runs only when stage 3 fails, and returns its hits, or
the empty sequence when it fails or has no hits. -/
theorem cascade_characterization (s2' s3 s4 : Except Unit (List Item)) :
    (∀ l1, l1 ≠ [] → cascade (Except.ok l1) s2' s3 s4 = l1) ∧
    cascade (Except.ok []) s2' s3 s4 = cascade (Except.error ()) s2' s3 s4 ∧
    (∀ l2, l2 ≠ [] → cascade (Except.error ()) (Except.ok l2) s3 s4 = l2) ∧
    cascade (Except.error ()) (Except.ok []) s3 s4 =
      cascade (Except.error ()) (Except.error ()) s3 s4 ∧
    (∀ l3, cascade (Except.error ()) (Except.error ()) (Except.ok l3) s4 = l3) ∧
    (∀ l4, cascade (Except.error ()) (Except.error ()) (Except.error ()) (Except.ok l4) = l4) ∧
    cascade (Except.error ()) (Except.error ()) (Except.error ()) (Except.error ()) = [] := by
  refine ⟨?_, rfl, ?_, rfl, fun l3 => rfl, fun l4 => rfl, rfl⟩
  · intro l1 h
    unfold cascade
    simp [List.isEmpty_iff, h]
  · intro l2 h
    unfold cascade stage2
    simp [List.isEmpty_iff, h]

/-- C2 amended, witness: a non-empty stage-1 result is returned directly. -/
theorem cascade_characterization_witness :
    cascade (Except.ok [gItem]) (Except.ok []) (Except.ok []) (Except.ok []) = [gItem] :=
  (cascade_characterization _ _ _).1 [gItem] (List.cons_ne_nil _ _)

/-! ## Search window (`_search_hls_items`, lines 133–145)

Dates are modelled as integer day numbers.  The source computes
`start_date = target - 15 days`, `end_date = target + 15 days`, clamps
`end_date` to `today`, and returns `[]` before issuing any request when
`start_date > end_date`. -/

/-- The clamped search window of `_search_hls_items`:
`(start_date, min end_date today)` in day numbers. -/
def searchWindow (today target : Int) : Int × Int :=
  (target - 15, min (target + 15) today)

/-- Source: `_search_hls_items` — window computation and inversion check,
then the strategy cascade.  The boolean records whether any network
request was issued (entering the cascade always issues the stage-1
request). -/
def search_hls_items (today target : Int)
    (s1 s2 s3 s4 : Except Unit (List Item)) : List Item × Bool :=
  if (searchWindow today target).1 > (searchWindow today target).2 then ([], false)
  else (cascade s1 s2 s3 s4, true)

/-- C3: the clamped window's end never exceeds today; the window is
inverted exactly when the target date is more than 15 days in the future;
and for such targets the search returns the empty sequence immediately,
without issuing any network request (the function is total — a normal
outcome, not an error). -/
theorem search_window_spec (today target : Int)
    (s1 s2 s3 s4 : Except Unit (List Item)) :
    (searchWindow today target).2 ≤ today ∧
    ((searchWindow today target).1 > (searchWindow today target).2 ↔ today + 15 < target) ∧
    (today + 15 < target → search_hls_items today target s1 s2 s3 s4 = ([], false)) := by
  refine ⟨min_le_right _ _, ?_, ?_⟩
  · unfold searchWindow
    simp only
    omega
  · intro h
    unfold search_hls_items
    rw [if_pos]
    unfold searchWindow
    simp only
    omega

/-- C3 witness: with today = day 0 and target = day 100 (more than 15
days in the future), the search returns empty with no network call. -/
theorem search_window_spec_witness :
    search_hls_items 0 100 (Except.ok [gItem]) (Except.ok [gItem])
      (Except.ok [gItem]) (Except.ok [gItem]) = ([], false) :=
  (search_window_spec 0 100 _ _ _ _).2.2 (by decide)

/-! ## Acquisition ranking (`State.fetch_tile`, lines 639–655)

`items.sort(key=lambda f: abs(_dt_of(f) - target))` is a stable sort by
the absolute time delta; `_dt_of` returns the parsed
`properties.datetime`, or `datetime.max` (UTC) when parsing raised.
Timestamps are modelled as microseconds since the Unix epoch; Python's
stable `list.sort` is modelled by a stable insertion sort (the stable
sort by a key is unique, so any stable sorting algorithm agrees with it).
The caller then keeps the closest three: `items[:3]`. -/

/-- Microseconds since the Unix epoch of `datetime.max`
(9999-12-31T23:59:59.999999, taken as UTC by `_dt_of`). -/
def DT_MAX_US : Int := 253402300799999999

/-- The sort key of `State.fetch_tile`'s ranking:
`abs(_dt_of(f) - target)` in microseconds, where `_dt_of` yields the
parsed timestamp, or `datetime.max` when parsing raised. -/
def dtKey (target : Int) (it : Item) : Nat :=
  (it.dt.getD DT_MAX_US - target).natAbs

/-- Insert `x` into a sorted list, after every element strictly smaller
than it and before the first element not smaller — the insertion step of
a stable insertion sort. -/
def insertSorted {α : Type} (lt : α → α → Bool) (x : α) : List α → List α
  | [] => [x]
  | y :: ys => if lt y x then y :: insertSorted lt x ys else x :: y :: ys

/-- Stable insertion sort; models Python's stable `list.sort`. -/
def sortBy {α : Type} (lt : α → α → Bool) : List α → List α
  | [] => []
  | x :: xs => insertSorted lt x (sortBy lt xs)

/-- Stable sort by a natural-number key, ascending. -/
def sortByKey {α : Type} (key : α → Nat) (l : List α) : List α :=
  sortBy (fun a b => key a < key b) l


/-- Source: `items.sort(key=...)` followed by `items = items[:3]`. -/
def rankAcquisitions (target : Int) (items : List Item) : List Item :=
  (sortByKey (dtKey target) items).take 3

theorem insertSorted_cons_pos {α : Type} (lt : α → α → Bool) (x y : α)
    (ys : List α) (h : lt y x = true) :
    insertSorted lt x (y :: ys) = y :: insertSorted lt x ys := by
  simp [insertSorted, h]

theorem insertSorted_cons_neg {α : Type} (lt : α → α → Bool) (x y : α)
    (ys : List α) (h : lt y x = false) :
    insertSorted lt x (y :: ys) = x :: y :: ys := by
  simp [insertSorted, h]

theorem length_insertSorted {α : Type} (lt : α → α → Bool) (x : α) :
    ∀ l : List α, (insertSorted lt x l).length = l.length + 1 := by
  intro l
  induction l with
  | nil => rfl
  | cons y ys ih =>
    unfold insertSorted
    split <;> simp [ih]

theorem length_sortBy {α : Type} (lt : α → α → Bool) :
    ∀ l : List α, (sortBy lt l).length = l.length := by
  intro l
  induction l with
  | nil => rfl
  | cons x xs ih =>
    unfold sortBy
    rw [length_insertSorted, ih]
    rfl

theorem length_sortByKey {α : Type} (key : α → Nat) (l : List α) :
    (sortByKey key l).length = l.length :=
  length_sortBy _ l

theorem mem_insertSorted {α : Type} (lt : α → α → Bool) (x a : α) :
    ∀ l : List α, a ∈ insertSorted lt x l ↔ a = x ∨ a ∈ l := by
  intro l
  induction l with
  | nil => simp [insertSorted]
  | cons y ys ih =>
    unfold insertSorted
    split
    · simp only [List.mem_cons, ih]
      tauto
    · simp only [List.mem_cons]

theorem pairwise_insertSorted {α : Type} (key : α → Nat) (x : α) (l : List α)
    (h : l.Pairwise (fun a b => key a ≤ key b)) :
    (insertSorted (fun a b => key a < key b) x l).Pairwise
      (fun a b => key a ≤ key b) := by
  induction l with
  | nil => simp [insertSorted]
  | cons y ys ih =>
    rw [List.pairwise_cons] at h
    obtain ⟨hy, hys⟩ := h
    by_cases hlt : key y < key x
    · rw [insertSorted_cons_pos _ _ _ _ (decide_eq_true hlt)]
      rw [List.pairwise_cons]
      refine ⟨?_, ih hys⟩
      intro z hz
      rcases (mem_insertSorted _ x z ys).mp hz with rfl | hz
      · exact le_of_lt hlt
      · exact hy z hz
    · rw [insertSorted_cons_neg _ _ _ _ (decide_eq_false hlt)]
      rw [List.pairwise_cons]
      refine ⟨?_, List.pairwise_cons.mpr ⟨hy, hys⟩⟩
      intro z hz
      rcases List.mem_cons.mp hz with rfl | hz
      · omega
      · exact le_trans (by omega) (hy z hz)

theorem pairwise_sortByKey {α : Type} (key : α → Nat) :
    ∀ l : List α, (sortByKey key l).Pairwise (fun a b => key a ≤ key b) := by
  intro l
  induction l with
  | nil => simp [sortByKey, sortBy]
  | cons x xs ih =>
    unfold sortByKey sortBy
    exact pairwise_insertSorted key x _ ih

theorem filter_insertSorted_eq {α : Type} (key : α → Nat) (k : Nat) (x : α)
    (hx : key x = k) :
    ∀ l : List α,
      (insertSorted (fun a b => key a < key b) x l).filter
          (fun a => key a == k) =
        x :: l.filter (fun a => key a == k) := by
  intro l
  induction l with
  | nil => simp [insertSorted, List.filter, hx]
  | cons y ys ih =>
    by_cases hlt : key y < key x
    · rw [insertSorted_cons_pos _ _ _ _ (decide_eq_true hlt)]
      have hyk : (key y == k) = false := by
        simp only [beq_eq_false_iff_ne, ne_eq]
        omega
      simp [List.filter_cons, hyk, ih]
    · rw [insertSorted_cons_neg _ _ _ _ (decide_eq_false hlt)]
      simp [List.filter_cons, hx]

theorem filter_insertSorted_ne {α : Type} (key : α → Nat) (k : Nat) (x : α)
    (hx : key x ≠ k) :
    ∀ l : List α,
      (insertSorted (fun a b => key a < key b) x l).filter
          (fun a => key a == k) =
        l.filter (fun a => key a == k) := by
  intro l
  have hxk : (key x == k) = false := by
    simp only [beq_eq_false_iff_ne, ne_eq]
    exact hx
  induction l with
  | nil => simp [insertSorted, List.filter, hxk]
  | cons y ys ih =>
    by_cases hlt : key y < key x
    · rw [insertSorted_cons_pos _ _ _ _ (decide_eq_true hlt)]
      simp [List.filter_cons, ih]
    · rw [insertSorted_cons_neg _ _ _ _ (decide_eq_false hlt)]
      simp [List.filter_cons, hxk]

theorem filter_sortByKey {α : Type} (key : α → Nat) (k : Nat) :
    ∀ l : List α,
      (sortByKey key l).filter (fun a => key a == k) =
        l.filter (fun a => key a == k) := by
  intro l
  induction l with
  | nil => rfl
  | cons x xs ih =>
    unfold sortByKey sortBy
    by_cases hx : key x = k
    · rw [filter_insertSorted_eq key k x hx]
      rw [show sortBy (fun a b => key a < key b) xs = sortByKey key xs from rfl, ih]
      simp [List.filter_cons, hx]
    · rw [filter_insertSorted_ne key k x hx]
      rw [show sortBy (fun a b => key a < key b) xs = sortByKey key xs from rfl, ih]
      have hxk : (key x == k) = false := by
        simp only [beq_eq_false_iff_ne, ne_eq]
        exact hx
      simp [List.filter_cons, hxk]

/-- C5: acquisition ranking is ordered by absolute time distance to the
target; the sort is stable (for every key value, the sorted list keeps
the input's relative order of the items with that key, so ties keep
discovery order); the closest three are selected; an acquisition whose
timestamp failed to parse gets the `datetime.max` sentinel distance and
never crashes the ranking (the ranking is a total function); and for any
parseable timestamp within the representable datetime range (and a target
no later than `datetime.max`, with the distance bound that range
implies), the unparseable sentinel is at least as far, so malformed
metadata is deprioritized. -/
theorem rank_acquisitions_spec (target : Int) (items : List Item) :
    (rankAcquisitions target items).Pairwise
      (fun a b => dtKey target a ≤ dtKey target b) ∧
    (∀ k, (sortByKey (dtKey target) items).filter
        (fun it => dtKey target it == k) =
      items.filter (fun it => dtKey target it == k)) ∧
    (rankAcquisitions target items).length = min 3 items.length ∧
    (∀ it, it.dt = none → dtKey target it = (DT_MAX_US - target).natAbs) ∧
    (∀ it t, it.dt = some t → dtKey target it = (t - target).natAbs) ∧
    (∀ it jt t, it.dt = none → jt.dt = some t → target ≤ DT_MAX_US →
      2 * target - DT_MAX_US ≤ t → t ≤ DT_MAX_US →
      dtKey target jt ≤ dtKey target it) := by
  refine ⟨?_, fun k => filter_sortByKey _ k items, ?_, ?_, ?_, ?_⟩
  · exact List.Pairwise.sublist (List.take_sublist 3 _)
      (pairwise_sortByKey (dtKey target) items)
  · unfold rankAcquisitions
    rw [List.length_take, length_sortByKey]
  · intro it h
    simp [dtKey, h]
  · intro it t h
    simp [dtKey, h]
  · intro it jt t hit hjt h1 h2 h3
    simp only [dtKey, hit, hjt, Option.getD_some, Option.getD_none]
    omega

/-- C5 witness: an acquisition with an unparseable timestamp receives the
`datetime.max` sentinel distance. -/
theorem rank_acquisitions_spec_witness :
    dtKey 0 { coll := "HLSL30.v2.0", dt := none, assets := [] } =
      (DT_MAX_US - 0).natAbs :=
  (rank_acquisitions_spec 0 []).2.2.2.1 _ rfl

/-! ## Spatial buffer (`_deg_buffer`, lines 127–131)

`dlat = meters / 111_320.0`;
`dlon = meters / (111_320.0 * max(0.1, math.cos(math.radians(lat))))`.
Modelled over `ℝ` (real-number semantics of the float computation);
`math.radians(lat) = lat * pi / 180`. -/

/-- Source: `_deg_buffer(lat, meters)` returning `(dlat, dlon)`. -/
noncomputable def deg_buffer (lat meters : ℝ) : ℝ × ℝ :=
  (meters / 111320, meters / (111320 * max 0.1 (Real.cos (lat * (Real.pi / 180)))))

theorem cos_radians_abs (l : ℝ) :
    Real.cos (l * (Real.pi / 180)) = Real.cos (|l| * (Real.pi / 180)) := by
  rw [show |l| * (Real.pi / 180) = |l * (Real.pi / 180)| by
    rw [abs_mul, abs_of_pos (by positivity : (0:ℝ) < Real.pi / 180)]]
  rw [Real.cos_abs]

/-- C7: with a nonnegative metric radius, the longitude half-width of the
buffer is monotonically non-decreasing in `|lat|` on the valid latitude
range, and — because the cosine divisor is floored at 0.1 — it never
exceeds `meters / 11132`, so it cannot blow up near the poles. -/
theorem deg_buffer_lon_monotone (meters l1 l2 : ℝ) (hm : 0 ≤ meters)
    (h12 : |l1| ≤ |l2|) (h2 : |l2| < 90) :
    (deg_buffer l1 meters).2 ≤ (deg_buffer l2 meters).2 ∧
    (deg_buffer l2 meters).2 ≤ meters / 11132 := by
  have hpi : (0:ℝ) < Real.pi / 180 := by positivity
  have hcos : Real.cos (|l2| * (Real.pi / 180)) ≤ Real.cos (|l1| * (Real.pi / 180)) := by
    apply Real.cos_le_cos_of_nonneg_of_le_pi
    · positivity
    · calc |l2| * (Real.pi / 180) ≤ 90 * (Real.pi / 180) := by
            apply mul_le_mul_of_nonneg_right (le_of_lt h2) (le_of_lt hpi)
          _ ≤ Real.pi := by
            rw [show (90:ℝ) * (Real.pi / 180) = Real.pi / 2 by ring]
            linarith [Real.pi_pos]
    · exact mul_le_mul_of_nonneg_right h12 (le_of_lt hpi)
  have hmax : max 0.1 (Real.cos (|l2| * (Real.pi / 180))) ≤
      max 0.1 (Real.cos (|l1| * (Real.pi / 180))) :=
    max_le_max le_rfl hcos
  have hfloor1 : (0.1:ℝ) ≤ max 0.1 (Real.cos (|l1| * (Real.pi / 180))) := le_max_left _ _
  have hfloor2 : (0.1:ℝ) ≤ max 0.1 (Real.cos (|l2| * (Real.pi / 180))) := le_max_left _ _
  constructor
  · show meters / (111320 * max 0.1 (Real.cos (l1 * (Real.pi / 180)))) ≤
        meters / (111320 * max 0.1 (Real.cos (l2 * (Real.pi / 180))))
    rw [cos_radians_abs l1, cos_radians_abs l2]
    apply div_le_div_of_nonneg_left hm
    · nlinarith
    · nlinarith
  · show meters / (111320 * max 0.1 (Real.cos (l2 * (Real.pi / 180)))) ≤ meters / 11132
    rw [cos_radians_abs l2]
    rw [show (11132:ℝ) = 111320 * 0.1 by norm_num]
    apply div_le_div_of_nonneg_left hm
    · norm_num
    · nlinarith

/-- C7 witness: instantiated at latitude 0 on both sides with a zero
radius. -/
theorem deg_buffer_lon_monotone_witness :
    (deg_buffer 0 0).2 ≤ (deg_buffer 0 0).2 ∧ (deg_buffer 0 0).2 ≤ (0:ℝ) / 11132 :=
  deg_buffer_lon_monotone 0 0 0 le_rfl le_rfl (by norm_num)

/-! ## Preview contrast stretch (`State.fetch_tile._stretch`, lines 778–781)

`lo, hi = np.percentile(x, (2, 98))`;
`x = np.clip((x - lo) / max(1e-6, (hi - lo)), 0, 1)`;
`return (x * 255).astype("uint8")`.

A channel is modelled as a `List ℚ` (real-number semantics of the float
array, flattened).  `np.percentile` with the default linear interpolation
sorts the data and interpolates at the virtual index `q/100 * (n-1)`.
`astype("uint8")` truncates toward zero, which on the nonnegative range
`[0, 255]` produced by the clip is the floor.  `1e-6` is modelled as the
rational `1/1000000` (only its strict positivity matters). -/

/-- Ascending sort of a rational list (the sort inside `np.percentile`). -/
def sortRat (l : List ℚ) : List ℚ :=
  sortBy (fun a b : ℚ => a < b) l

/-- Model of `np.percentile(x, q)` with linear interpolation: virtual index
`pos = q/100 * (n-1)`, result `s[i] + (pos - i) * (s[i+1] - s[i])` with
`i = floor pos` (the out-of-range upper neighbour, reached only with a
zero fractional part, defaults to the lower one).  The empty case (on
which NumPy raises) is mapped to 0 and never reached by the claims. -/
def percentile (l : List ℚ) (q : ℚ) : ℚ :=
  let s := sortRat l
  if s.length = 0 then 0
  else
    let pos : ℚ := q * ((s.length : ℚ) - 1) / 100
    let i : Nat := (Int.floor pos).toNat
    let lo := s.getD i 0
    let hi := s.getD (i + 1) lo
    lo + (pos - (Int.floor pos : ℚ)) * (hi - lo)

/-- Model of `np.clip(v, 0, 1)`. -/
def clip01 (x : ℚ) : ℚ := min (max x 0) 1

/-- Model of `astype("uint8")` on a value already clipped into `[0, 255]`:
truncation toward zero, i.e. the floor on nonnegative input. -/
def toUint8 (x : ℚ) : Nat := (Int.floor x).toNat

/-- Source: the per-channel `_stretch` helper of `State.fetch_tile`. -/
def stretch (x : List ℚ) : List Nat :=
  let lo := percentile x 2
  let hi := percentile x 98
  x.map (fun v => toUint8 (clip01 ((v - lo) / max (1/1000000 : ℚ) (hi - lo)) * 255))

theorem getD_replicate_lt (c d : ℚ) :
    ∀ (n i : Nat), i < n → (List.replicate n c).getD i d = c := by
  intro n
  induction n with
  | zero => omega
  | succ m ih =>
    intro i hi
    cases i with
    | zero => rfl
    | succ j => exact ih j (by omega)

theorem getD_replicate_ge (c d : ℚ) :
    ∀ (n i : Nat), n ≤ i → (List.replicate n c).getD i d = d := by
  intro n
  induction n with
  | zero => intro i _; rfl
  | succ m ih =>
    intro i hi
    cases i with
    | zero => omega
    | succ j => exact ih j (by omega)

theorem sortRat_const (c : ℚ) :
    ∀ l : List ℚ, (∀ v ∈ l, v = c) → sortRat l = List.replicate l.length c := by
  intro l
  induction l with
  | nil => intro _; rfl
  | cons x xs ih =>
    intro h
    have hx : x = c := h x (List.mem_cons_self x xs)
    have hxs : sortRat xs = List.replicate xs.length c :=
      ih (fun v hv => h v (List.mem_cons_of_mem x hv))
    show insertSorted (fun a b : ℚ => a < b) x (sortRat xs) =
      List.replicate (xs.length + 1) c
    rw [hxs, hx]
    induction xs.length with
    | zero => rfl
    | succ m ihm =>
      rw [List.replicate_succ, insertSorted_cons_neg _ _ _ _ (by simp)]
      rfl

theorem percentile_const (l : List ℚ) (c q : ℚ) (hne : l ≠ [])
    (h0 : 0 ≤ q) (h100 : q ≤ 100) (hc : ∀ v ∈ l, v = c) :
    percentile l q = c := by
  have hs : sortRat l = List.replicate l.length c := sortRat_const c l hc
  have hn : 0 < l.length := List.length_pos.mpr hne
  unfold percentile
  rw [hs]
  simp only [List.length_replicate]
  rw [if_neg (by omega)]
  have hpos0 : (0:ℚ) ≤ q * ((l.length : ℚ) - 1) / 100 := by
    apply div_nonneg _ (by norm_num)
    apply mul_nonneg h0
    have : (1:ℚ) ≤ (l.length : ℚ) := by exact_mod_cast hn
    linarith
  have hposle : q * ((l.length : ℚ) - 1) / 100 ≤ ((l.length : ℚ) - 1) := by
    rw [div_le_iff₀ (by norm_num : (0:ℚ) < 100)]
    have : (0:ℚ) ≤ (l.length : ℚ) - 1 := by
      have : (1:ℚ) ≤ (l.length : ℚ) := by exact_mod_cast hn
      linarith
    nlinarith
  have hfloor_le : Int.floor (q * ((l.length : ℚ) - 1) / 100) ≤ (l.length : Int) - 1 := by
    calc Int.floor (q * ((l.length : ℚ) - 1) / 100)
        ≤ Int.floor ((l.length : ℚ) - 1) := Int.floor_le_floor hposle
      _ = (l.length : Int) - 1 := by
          rw [show ((l.length : ℚ) - 1) = (((l.length : Int) - 1 : Int) : ℚ) by push_cast; ring]
          exact Int.floor_intCast _
  have hi_lt : (Int.floor (q * ((l.length : ℚ) - 1) / 100)).toNat < l.length := by
    have := Int.toNat_le_toNat hfloor_le
    have h2 : ((l.length : Int) - 1).toNat = l.length - 1 := by omega
    omega
  rw [getD_replicate_lt c 0 _ _ hi_lt]
  by_cases hup : (Int.floor (q * ((l.length : ℚ) - 1) / 100)).toNat + 1 < l.length
  · rw [getD_replicate_lt c c _ _ hup]
    ring
  · rw [getD_replicate_ge c c _ _ (by omega)]
    ring

/-- C8: for a nonempty constant-valued input channel (so the 2nd and 98th
percentiles coincide), the stretch denominator `max(1e-6, hi - lo)` is
strictly positive — no division error can arise — and the output channel
is flat (the constant 8-bit value 0). -/
theorem stretch_const (l : List ℚ) (c : ℚ) (hne : l ≠ []) (hc : ∀ v ∈ l, v = c) :
    0 < max (1/1000000 : ℚ) (percentile l 98 - percentile l 2) ∧
    stretch l = List.replicate l.length 0 := by
  have h2 : percentile l 2 = c := percentile_const l c 2 hne (by norm_num) (by norm_num) hc
  have h98 : percentile l 98 = c := percentile_const l c 98 hne (by norm_num) (by norm_num) hc
  constructor
  · apply lt_of_lt_of_le (by norm_num : (0:ℚ) < 1/1000000) (le_max_left _ _)
  · unfold stretch
    rw [h2, h98]
    have : ∀ v ∈ l, toUint8 (clip01 ((v - c) / max (1/1000000 : ℚ) (c - c)) * 255) = 0 := by
      intro v hv
      rw [hc v hv]
      norm_num [clip01, toUint8]
    calc l.map (fun v => toUint8 (clip01 ((v - c) / max (1/1000000 : ℚ) (c - c)) * 255))
        = l.map (fun _ => 0) := List.map_congr_left this
      _ = List.replicate l.length 0 := List.map_const' l 0

/-- C8 witness: the constant channel `[5, 5, 5]` stretches to a flat zero
channel with a strictly positive denominator. -/
theorem stretch_const_witness :
    0 < max (1/1000000 : ℚ) (percentile [5, 5, 5] 98 - percentile [5, 5, 5] 2) ∧
    stretch [5, 5, 5] = List.replicate ([5, 5, 5] : List ℚ).length 0 :=
  stretch_const [5, 5, 5] 5 (by decide) (by decide)

/-! ## Coordinate parsing (`_safe_float`, lines 102–106)

`_safe_float(s)` returns `float(s)` when `s` is neither `None` nor the
empty string and the conversion succeeds, else `None`.  The state fields
feeding it are always strings, so the `None` input case cannot arise.
`float()` is modelled on plain signed decimal literals (optional sign,
digits, optional fractional part); the exponent/`inf`/`nan`/whitespace
forms accepted by Python do not occur in any claim and parse to `none`
here. -/

/-- Numeric value of a digit list (most significant first). -/
def digitsVal (cs : List Char) : Nat :=
  cs.foldl (fun n c => 10 * n + (c.toNat - 48)) 0

/-- Parse a plain signed decimal literal, the fragment of Python
`float()` exercised by the pipeline's inputs. -/
def parseDecimal (s : String) : Option ℚ :=
  let cs := s.data
  let neg : Bool := cs.head? = some '-'
  let body := if cs.head? = some '-' ∨ cs.head? = some '+' then cs.tail else cs
  let ip := body.takeWhile (fun c => c ≠ '.')
  let rest := body.dropWhile (fun c => c ≠ '.')
  match rest with
  | [] =>
    if ip ≠ [] ∧ ip.all Char.isDigit then
      some (if neg then -(digitsVal ip : ℚ) else (digitsVal ip : ℚ))
    else none
  | _ :: fr =>
    if (ip ≠ [] ∨ fr ≠ []) ∧ ip.all Char.isDigit ∧ fr.all Char.isDigit then
      let mag : ℚ := (digitsVal ip : ℚ) + (digitsVal fr : ℚ) / ((10 : ℚ) ^ fr.length)
      some (if neg then -mag else mag)
    else none

/-- Source: `_safe_float(s)`. -/
def safe_float (s : String) : Option ℚ :=
  if s = "" then none else parseDecimal s

/-! ## The `fetch_tile` event handler (`State.fetch_tile`, lines 617–791)

The handler's observable state fields and its environment.  The
environment carries the outcomes of the remote interactions: the geocode
result for the current address, the feature list returned by
`_search_hls_items`, the parsed target datetime, whether the raster
backend (`rasterio`/`numpy`) imported, and whether the preview generation
block succeeds (its failures are caught and non-fatal).  The
`EARTHDATA_TOKEN` lookup only sets a transient status that is always
overwritten before returning, so it is not part of the environment. -/

structure AppState where
  input_lat : String
  input_lon : String
  input_address : String
  date_str : String
  fetch_status : String
  tile_path : String
  preview_png : String
deriving DecidableEq, Repr

structure FetchEnv where
  geocode : Option (ℚ × ℚ)
  items : List Item
  target : Int
  rasterAvailable : Bool
  previewOk : Bool
deriving DecidableEq, Repr

inductive FileKind where
  | tif
  | png
deriving DecidableEq, Repr

/-- Python `str.strip`, on the underlying character lists. -/
def pyStrip (s : String) : String :=
  String.mk (((s.data.dropWhile Char.isWhitespace).reverse.dropWhile
    Char.isWhitespace).reverse)

/-- Lines 622–624: the geocoder is consulted exactly when the explicit
coordinate is unusable and a nonblank address is present
(`(self.input_address or "").strip()` is truthy). -/
def geocodeAttempted (slat slon addr : String) : Bool :=
  ((safe_float slat).isNone || (safe_float slon).isNone) && !(pyStrip addr == "")

/-- Lines 620–628: the candidate latitude/longitude after the optional
geocoding step — the parsed explicit components, both replaced by the
geocode result when the geocoder was consulted and succeeded. -/
def coordCandidates (slat slon addr : String) (geocode : Option (ℚ × ℚ)) :
    Option ℚ × Option ℚ :=
  if geocodeAttempted slat slon addr then
    match geocode with
    | some (la, lo) => (some la, some lo)
    | none => (safe_float slat, safe_float slon)
  else (safe_float slat, safe_float slon)

/-- Line 629: `if lat is None or lon is None` — the pipeline proceeds
only when both components are present. -/
def pairOpt : Option ℚ × Option ℚ → Option (ℚ × ℚ)
  | (some a, some b) => some (a, b)
  | _ => none

/-- Lines 620–631: the coordinate `fetch_tile` proceeds with, or `none`
when it fails with `noCoordMsg`. -/
def resolveCoord (slat slon addr : String) (geocode : Option (ℚ × ℚ)) :
    Option (ℚ × ℚ) :=
  pairOpt (coordCandidates slat slon addr geocode)

/-- Stands for the f-string fixed-point formatting (6 or 5 decimals) used
when echoing coordinates into the input fields and into the output file
names; no claim inspects the digits, only whether the field changed. -/
def fmtF (q : ℚ) : String := toString q

/-- Line 691–702 `_pick_href` and lines 704–711: collect the asset for
each required band code in band order; the first missing band code is
reported (left), otherwise the six references in order (right). -/
def collectRefs (assets : List (String × AssetRef)) : List String →
    Sum String (List AssetRef)
  | [] => Sum.inr []
  | b :: bs =>
    (assets.find? (fun p => p.1 == b)).elim (Sum.inl b)
      (fun p => (collectRefs assets bs).elim Sum.inl
        (fun rest => Sum.inr (p.2 :: rest)))

/-- Lines 685–713: per-acquisition asset resolution over the collection's
six band codes. -/
def itemRefs (it : Item) : Sum String (List AssetRef) :=
  collectRefs it.assets (bands_for_collection it.coll)

/-- Lines 716–744: read the bands of one acquisition, appending each
band's array to the running stack; a preflight probe answering HTTP
401/403 aborts the whole extraction (`none`); a probe exception is caught
and the read proceeds. -/
def readBands : List AssetRef → List Int → Option (List Int)
  | [], arrays => some arrays
  | a :: rest, arrays =>
    a.probe.elim (readBands rest (arrays ++ [a.data]))
      (fun st =>
        if st = 401 ∨ st = 403 then none
        else readBands rest (arrays ++ [a.data]))

/-- Lines 685–756: the extraction loop over the ranked acquisitions; an
acquisition with a missing band contributes nothing (`continue`), an
unauthorized probe aborts everything. -/
def extractLoop : List Item → List Int → Option (List Int)
  | [], arrays => some arrays
  | it :: rest, arrays =>
    (itemRefs it).elim (fun _ => extractLoop rest arrays)
      (fun refs => (readBands refs arrays).bind (fun arrays2 => extractLoop rest arrays2))

/-- An acquisition for which all six bands resolve (and which therefore
contributes exactly six arrays on a non-aborted run). -/
def fullyRead (it : Item) : Bool :=
  (itemRefs it).elim (fun _ => false) (fun _ => true)

def noCoordMsg : String := "Provide lat/lon or a valid address."

def noItemsMsg : String := "No HLS items found near that point/date. Try adjusting date."

def noBackendMsg : String :=
  "Raster backend missing. Please `pip install rasterio numpy` in your venv."

def unauthorizedMsg : String :=
  "Unauthorized (401/403) reading HLS asset. Ensure EARTHDATA_TOKEN is set and valid in the same shell before running `reflex run`."

/-- Lines 757–763: the incomplete-band-stack status; the count actually
obtained is interpolated into the message.  (The advisory second line
writes out the source's contraction.) -/
def incompleteMsg (n : Nat) : String :=
  "Expected 18 band slices, got " ++ toString n ++
    ".\nIf you set EARTHDATA_TOKEN, ensure it is valid and restart the app.\nWe now send the token via HTTP Authorization header for ranged reads."

/-- Lines 624–628: on geocode success the resolved coordinate is echoed
back into the `input_lat`/`input_lon` fields. -/
def echoGeocode (env : FetchEnv) (s : AppState) : AppState :=
  if geocodeAttempted s.input_lat s.input_lon s.input_address then
    match env.geocode with
    | some (la, lo) => { s with input_lat := fmtF la, input_lon := fmtF lo }
    | none => s
  else s

/-- Source: `State.fetch_tile`.  Returns the updated state fields and the
list of files written, in write order.  The spatial-window computation
(`_deg_buffer` at 500 m, modelled separately as `deg_buffer`) does not
influence control flow and is not threaded here; the per-band reads it
parameterizes are the abstract `AssetRef.data` tokens. -/
def fetch_tile (env : FetchEnv) (s : AppState) : AppState × List FileKind :=
  let s1 := echoGeocode env s
  (resolveCoord s.input_lat s.input_lon s.input_address env.geocode).elim
    ({ s1 with fetch_status := noCoordMsg }, [])
    (fun latlon =>
      if env.items = [] then ({ s1 with fetch_status := noItemsMsg }, [])
      else
        if env.rasterAvailable = false then
          ({ s1 with fetch_status := noBackendMsg }, [])
        else
          (extractLoop (rankAcquisitions env.target env.items) []).elim
            ({ s1 with fetch_status := unauthorizedMsg }, [])
            (fun arrays =>
              if arrays.length ≠ 18 then
                ({ s1 with fetch_status := incompleteMsg arrays.length }, [])
              else
                let base := "/hls_tile_" ++ fmtF latlon.1 ++ "_" ++ fmtF latlon.2
                  ++ "_" ++ s.date_str
                if env.previewOk then
                  ({ s1 with
                      tile_path := base ++ ".tif"
                      preview_png := base ++ ".png"
                      fetch_status := "Tile ready." }, [FileKind.tif, FileKind.png])
                else
                  ({ s1 with
                      tile_path := base ++ ".tif"
                      preview_png := ""
                      fetch_status := "Tile ready." }, [FileKind.tif])))

/-- C6: the band taxonomy mapping is a total function of the collection
identifier alone — it is a pure Lean function here exactly because the
source computes it without any network access, so repeated applications
with the same identifier are definitionally equal.  Every collection
identifier maps to exactly 6 band codes: the Sentinel-2 alphabet for the
`HLSS30` family and the Landsat alphabet for every other identifier, and
the two alphabets are distinct. -/
theorem bands_for_collection_spec (coll_id : String) :
    (bands_for_collection coll_id).length = 6 ∧
    (startswith coll_id "HLSS30" = true →
      bands_for_collection coll_id = S30_BANDS) ∧
    (startswith coll_id "HLSS30" = false →
      bands_for_collection coll_id = L30_BANDS) ∧
    S30_BANDS ≠ L30_BANDS := by
  refine ⟨bands_for_collection_length coll_id, ?_, ?_, by decide⟩
  · intro h
    simp [bands_for_collection, h]
  · intro h
    simp [bands_for_collection, h]

/-- C6 witness: the Sentinel-2 collection resolves to the 6-element
Sentinel-2 band alphabet. -/
theorem bands_for_collection_spec_witness :
    bands_for_collection "HLSS30.v2.0" = S30_BANDS :=
  (bands_for_collection_spec "HLSS30.v2.0").2.1 (by decide)

/-- C9: counterexample — the caller-supplied coordinate with latitude
text "1000" parses, is accepted by `fetch_tile`'s coordinate resolution
(no range check exists anywhere on the path), and violates the claimed
invariant latitude ∈ [-90, 90]. -/
theorem coord_range_counterexample :
    safe_float "1000" = some 1000 ∧
    resolveCoord "1000" "0" "" none = some (1000, 0) ∧
    ¬((1000 : ℚ) ≤ 90) := by
  exact ⟨by decide, by decide, by decide⟩

theorem pairOpt_some_iff (x y : Option ℚ) (a b : ℚ) :
    pairOpt (x, y) = some (a, b) ↔ x = some a ∧ y = some b := by
  cases x <;> cases y <;> simp [pairOpt]

theorem coordCandidates_geo_some (slat slon addr : String) (la lo : ℚ)
    (h : geocodeAttempted slat slon addr = true) :
    coordCandidates slat slon addr (some (la, lo)) = (some la, some lo) := by
  unfold coordCandidates
  rw [h]
  rfl

theorem coordCandidates_geo_none (slat slon addr : String)
    (h : geocodeAttempted slat slon addr = true) :
    coordCandidates slat slon addr none = (safe_float slat, safe_float slon) := by
  unfold coordCandidates
  rw [h]
  rfl

theorem coordCandidates_geo_off (slat slon addr : String) (g : Option (ℚ × ℚ))
    (h : geocodeAttempted slat slon addr = false) :
    coordCandidates slat slon addr g = (safe_float slat, safe_float slon) := by
  unfold coordCandidates
  rw [h]
  rfl

/-- C9 amended: a caller-supplied coordinate is used exactly when both
components parse as decimal floats — well-formedness means parseability
only, with no range validation, so out-of-range values such as latitude
1000 are accepted; a geocoded coordinate is likewise used verbatim; and
every coordinate the pipeline proceeds with comes either from the parsed
caller inputs or unmodified from the geocoder. -/
theorem resolveCoord_amended (slat slon addr : String) (g : Option (ℚ × ℚ)) :
    (∀ a b, safe_float slat = some a → safe_float slon = some b →
      resolveCoord slat slon addr g = some (a, b)) ∧
    (∀ la lo, geocodeAttempted slat slon addr = true → g = some (la, lo) →
      resolveCoord slat slon addr g = some (la, lo)) ∧
    (∀ a b, resolveCoord slat slon addr g = some (a, b) →
      (safe_float slat = some a ∧ safe_float slon = some b) ∨ g = some (a, b)) := by
  refine ⟨?_, ?_, ?_⟩
  · intro a b ha hb
    have hga : geocodeAttempted slat slon addr = false := by
      unfold geocodeAttempted
      rw [ha, hb]
      rfl
    unfold resolveCoord coordCandidates
    rw [hga]
    simp only [Bool.false_eq_true, if_false, ha, hb]
    rfl
  · intro la lo hga hg
    unfold resolveCoord coordCandidates
    rw [hga, hg]
    rfl
  · intro a b h
    unfold resolveCoord at h
    by_cases hga : geocodeAttempted slat slon addr = true
    · cases hg : g with
      | none =>
        rw [hg, coordCandidates_geo_none slat slon addr hga] at h
        left
        exact (pairOpt_some_iff _ _ a b).mp h
      | some p =>
        obtain ⟨la, lo⟩ := p
        rw [hg, coordCandidates_geo_some slat slon addr la lo hga] at h
        obtain ⟨h1, h2⟩ := (pairOpt_some_iff _ _ a b).mp h
        right
        simp only [Option.some_inj] at h1 h2
        rw [h1, h2]
    · rw [Bool.not_eq_true] at hga
      rw [coordCandidates_geo_off slat slon addr g hga] at h
      left
      exact (pairOpt_some_iff _ _ a b).mp h

/-- C9 amended, witness: the parseable explicit pair ("1", "2") is used
as supplied, with no geocoding. -/
theorem resolveCoord_amended_witness :
    resolveCoord "1" "2" "" none = some (1, 2) :=
  (resolveCoord_amended "1" "2" "" none).1 1 2 (by decide) (by decide)

/-! ## Extraction-loop lemmas (`State.fetch_tile`, lines 685–763) -/

theorem readBands_length :
    ∀ (refs : List AssetRef) (arrays arrays2 : List Int),
      readBands refs arrays = some arrays2 →
      arrays2.length = arrays.length + refs.length := by
  intro refs
  induction refs with
  | nil =>
    intro a a2 h
    simp only [readBands, Option.some_inj] at h
    simp [← h]
  | cons r rest ih =>
    intro a a2 h
    unfold readBands at h
    cases hp : r.probe with
    | some st =>
      rw [hp, Option.elim_some] at h
      by_cases hs : st = 401 ∨ st = 403
      · rw [if_pos hs] at h
        exact absurd h (by simp)
      · rw [if_neg hs] at h
        have h2 := ih _ _ h
        simp only [List.length_append, List.length_cons, List.length_nil] at h2 ⊢
        omega
    | none =>
      rw [hp, Option.elim_none] at h
      have h2 := ih _ _ h
      simp only [List.length_append, List.length_cons, List.length_nil] at h2 ⊢
      omega

theorem collectRefs_length (assets : List (String × AssetRef)) :
    ∀ (bs : List String) (refs : List AssetRef),
      collectRefs assets bs = Sum.inr refs → refs.length = bs.length := by
  intro bs
  induction bs with
  | nil =>
    intro refs h
    simp only [collectRefs, Sum.inr.injEq] at h
    simp [← h]
  | cons b bs ih =>
    intro refs h
    unfold collectRefs at h
    cases hf : assets.find? (fun p => p.1 == b) with
    | none =>
      rw [hf, Option.elim_none] at h
      exact absurd h (by simp)
    | some p =>
      rw [hf, Option.elim_some] at h
      cases hc : collectRefs assets bs with
      | inl m =>
        rw [hc, Sum.elim_inl] at h
        exact absurd h (by simp)
      | inr rest =>
        rw [hc, Sum.elim_inr] at h
        simp only [Sum.inr.injEq] at h
        rw [← h]
        simp [ih rest hc]

theorem itemRefs_six (it : Item) (refs : List AssetRef)
    (h : itemRefs it = Sum.inr refs) : refs.length = 6 := by
  unfold itemRefs at h
  rw [collectRefs_length it.assets _ refs h]
  exact bands_for_collection_length it.coll

theorem extractLoop_length :
    ∀ (items : List Item) (arrays0 arrays : List Int),
      extractLoop items arrays0 = some arrays →
      arrays.length = arrays0.length + 6 * (items.filter fullyRead).length := by
  intro items
  induction items with
  | nil =>
    intro a0 a h
    simp only [extractLoop, Option.some_inj] at h
    simp [← h]
  | cons it rest ih =>
    intro a0 a h
    unfold extractLoop at h
    cases hr : itemRefs it with
    | inl m =>
      rw [hr, Sum.elim_inl] at h
      have h2 := ih _ _ h
      have hfr : fullyRead it = false := by simp [fullyRead, hr]
      simp only [List.filter_cons, hfr, if_neg]
      simpa using h2
    | inr refs =>
      rw [hr, Sum.elim_inr] at h
      cases hb : readBands refs a0 with
      | none =>
        rw [hb, Option.none_bind] at h
        exact absurd h (by simp)
      | some a1 =>
        rw [hb, Option.some_bind] at h
        have h1 := readBands_length refs a0 a1 hb
        have h2 := ih _ _ h
        have hrl : refs.length = 6 := itemRefs_six it refs hr
        have hfr : fullyRead it = true := by simp [fullyRead, hr]
        simp only [List.filter_cons, hfr, if_pos, List.length_cons]
        omega

theorem readBands_unauthorized (a : AssetRef) (rest : List AssetRef)
    (arrays : List Int) (h : a.probe = some 401 ∨ a.probe = some 403) :
    readBands (a :: rest) arrays = none := by
  unfold readBands
  rcases h with h | h <;> rw [h, Option.elim_some] <;> simp

theorem extractLoop_unauthorized (it : Item) (refs : List AssetRef)
    (rest : List Item) (arrays : List Int) (hr : itemRefs it = Sum.inr refs)
    (hb : readBands refs arrays = none) :
    extractLoop (it :: rest) arrays = none := by
  unfold extractLoop
  rw [hr, Sum.elim_inr, hb, Option.none_bind]

theorem echoGeocode_fields (env : FetchEnv) (s : AppState) :
    (echoGeocode env s).input_address = s.input_address ∧
    (echoGeocode env s).date_str = s.date_str ∧
    (echoGeocode env s).tile_path = s.tile_path ∧
    (echoGeocode env s).preview_png = s.preview_png ∧
    (echoGeocode env s).fetch_status = s.fetch_status := by
  unfold echoGeocode
  by_cases hga : geocodeAttempted s.input_lat s.input_lon s.input_address = true
  · rw [hga]
    cases env.geocode with
    | none => exact ⟨rfl, rfl, rfl, rfl, rfl⟩
    | some p =>
      obtain ⟨la, lo⟩ := p
      exact ⟨rfl, rfl, rfl, rfl, rfl⟩
  · rw [Bool.not_eq_true] at hga
    rw [hga]
    exact ⟨rfl, rfl, rfl, rfl, rfl⟩

theorem fetch_tile_noCoord (env : FetchEnv) (s : AppState)
    (h : resolveCoord s.input_lat s.input_lon s.input_address env.geocode = none) :
    fetch_tile env s = ({ echoGeocode env s with fetch_status := noCoordMsg }, []) := by
  unfold fetch_tile
  rw [h, Option.elim_none]

theorem fetch_tile_noItems (env : FetchEnv) (s : AppState) (latlon : ℚ × ℚ)
    (h : resolveCoord s.input_lat s.input_lon s.input_address env.geocode = some latlon)
    (hi : env.items = []) :
    fetch_tile env s = ({ echoGeocode env s with fetch_status := noItemsMsg }, []) := by
  unfold fetch_tile
  rw [h, Option.elim_some, if_pos hi]

theorem fetch_tile_noBackend (env : FetchEnv) (s : AppState) (latlon : ℚ × ℚ)
    (h : resolveCoord s.input_lat s.input_lon s.input_address env.geocode = some latlon)
    (hi : env.items ≠ []) (hr : env.rasterAvailable = false) :
    fetch_tile env s = ({ echoGeocode env s with fetch_status := noBackendMsg }, []) := by
  unfold fetch_tile
  rw [h, Option.elim_some, if_neg hi, if_pos hr]

theorem fetch_tile_unauthorized_eq (env : FetchEnv) (s : AppState) (latlon : ℚ × ℚ)
    (h : resolveCoord s.input_lat s.input_lon s.input_address env.geocode = some latlon)
    (hi : env.items ≠ []) (hr : env.rasterAvailable = true)
    (hl : extractLoop (rankAcquisitions env.target env.items) [] = none) :
    fetch_tile env s = ({ echoGeocode env s with fetch_status := unauthorizedMsg }, []) := by
  unfold fetch_tile
  rw [h, Option.elim_some, if_neg hi, if_neg (by rw [hr]; simp), hl, Option.elim_none]

theorem fetch_tile_incomplete_eq (env : FetchEnv) (s : AppState) (latlon : ℚ × ℚ)
    (arrays : List Int)
    (h : resolveCoord s.input_lat s.input_lon s.input_address env.geocode = some latlon)
    (hi : env.items ≠ []) (hr : env.rasterAvailable = true)
    (hl : extractLoop (rankAcquisitions env.target env.items) [] = some arrays)
    (hlen : arrays.length ≠ 18) :
    fetch_tile env s =
      ({ echoGeocode env s with fetch_status := incompleteMsg arrays.length }, []) := by
  unfold fetch_tile
  rw [h, Option.elim_some, if_neg hi, if_neg (by rw [hr]; simp), hl, Option.elim_some,
    if_pos hlen]

/-- C10: frame property of `fetch_tile`.  On every early-failure return
(unresolvable coordinate, empty search result, missing raster backend,
401/403 preflight, or a band count other than 18 — i.e. whenever the
final status is not "Tile ready.") the fields `tile_path` and
`preview_png` keep their prior values and no file is written;
`input_address` and `date_str` are never modified (so besides the
status only the `input_lat`/`input_lon` echo of a successful geocode can
change); and `tile_path`/`preview_png` are (re)assigned only on the
success path, after the GeoTIFF has been written. -/
theorem fetch_tile_frame (env : FetchEnv) (s : AppState) :
    ((fetch_tile env s).1.fetch_status ≠ "Tile ready." →
      (fetch_tile env s).1.tile_path = s.tile_path ∧
      (fetch_tile env s).1.preview_png = s.preview_png ∧
      (fetch_tile env s).2 = []) ∧
    (fetch_tile env s).1.input_address = s.input_address ∧
    (fetch_tile env s).1.date_str = s.date_str ∧
    (((fetch_tile env s).1.tile_path ≠ s.tile_path ∨
      (fetch_tile env s).1.preview_png ≠ s.preview_png) →
      FileKind.tif ∈ (fetch_tile env s).2 ∧
      (fetch_tile env s).1.fetch_status = "Tile ready.") := by
  obtain ⟨hA, hD, hT, hP, hS⟩ := echoGeocode_fields env s
  cases hres : resolveCoord s.input_lat s.input_lon s.input_address env.geocode with
  | none =>
    rw [fetch_tile_noCoord env s hres]
    refine ⟨fun _ => ⟨hT, hP, rfl⟩, hA, hD, fun hchg => ?_⟩
    rcases hchg with hc | hc
    · exact absurd hT hc
    · exact absurd hP hc
  | some latlon =>
    by_cases hi : env.items = []
    · rw [fetch_tile_noItems env s latlon hres hi]
      refine ⟨fun _ => ⟨hT, hP, rfl⟩, hA, hD, fun hchg => ?_⟩
      rcases hchg with hc | hc
      · exact absurd hT hc
      · exact absurd hP hc
    · by_cases hr : env.rasterAvailable = false
      · rw [fetch_tile_noBackend env s latlon hres hi hr]
        refine ⟨fun _ => ⟨hT, hP, rfl⟩, hA, hD, fun hchg => ?_⟩
        rcases hchg with hc | hc
        · exact absurd hT hc
        · exact absurd hP hc
      · rw [Bool.not_eq_false] at hr
        cases hl : extractLoop (rankAcquisitions env.target env.items) [] with
        | none =>
          rw [fetch_tile_unauthorized_eq env s latlon hres hi hr hl]
          refine ⟨fun _ => ⟨hT, hP, rfl⟩, hA, hD, fun hchg => ?_⟩
          rcases hchg with hc | hc
          · exact absurd hT hc
          · exact absurd hP hc
        | some arrays =>
          by_cases hlen : arrays.length ≠ 18
          · rw [fetch_tile_incomplete_eq env s latlon arrays hres hi hr hl hlen]
            refine ⟨fun _ => ⟨hT, hP, rfl⟩, hA, hD, fun hchg => ?_⟩
            rcases hchg with hc | hc
            · exact absurd hT hc
            · exact absurd hP hc
          · unfold fetch_tile
            rw [hres, Option.elim_some, if_neg hi, if_neg (by rw [hr]; simp), hl,
              Option.elim_some, if_neg hlen]
            by_cases hp : env.previewOk = true
            · rw [hp]
              refine ⟨fun hst => absurd rfl hst, hA, hD, fun _ => ⟨?_, rfl⟩⟩
              exact List.mem_cons_self _ _
            · rw [Bool.not_eq_true] at hp
              rw [hp]
              refine ⟨fun hst => absurd rfl hst, hA, hD, fun _ => ⟨?_, rfl⟩⟩
              exact List.mem_cons_self _ _

/-- C1: on every non-aborted run of the extraction loop the assembled
band stack holds exactly 6 arrays per acquisition for which all 6 bands
resolved — never a partial multiple of 6; when the total is not 18 the
pipeline stops with the status reporting the count actually obtained and
writes nothing; and any file write at all implies the count check passed
with exactly 18 arrays (tile output only after the check). -/
theorem fetch_tile_bandstack (env : FetchEnv) (s : AppState) :
    (∀ (items : List Item) (arrays0 arrays : List Int),
      extractLoop items arrays0 = some arrays →
      arrays.length = arrays0.length + 6 * (items.filter fullyRead).length) ∧
    (∀ (latlon : ℚ × ℚ) (arrays : List Int),
      resolveCoord s.input_lat s.input_lon s.input_address env.geocode = some latlon →
      env.items ≠ [] → env.rasterAvailable = true →
      extractLoop (rankAcquisitions env.target env.items) [] = some arrays →
      arrays.length ≠ 18 →
      (fetch_tile env s).1.fetch_status = incompleteMsg arrays.length ∧
      (fetch_tile env s).2 = []) ∧
    (∀ k, k ∈ (fetch_tile env s).2 →
      ∃ arrays, extractLoop (rankAcquisitions env.target env.items) [] = some arrays ∧
        arrays.length = 18) := by
  refine ⟨extractLoop_length, ?_, ?_⟩
  · intro latlon arrays hres hi hr hl hlen
    rw [fetch_tile_incomplete_eq env s latlon arrays hres hi hr hl hlen]
    exact ⟨rfl, rfl⟩
  · intro k hk
    cases hres : resolveCoord s.input_lat s.input_lon s.input_address env.geocode with
    | none =>
      rw [fetch_tile_noCoord env s hres] at hk
      simp at hk
    | some latlon =>
      by_cases hi : env.items = []
      · rw [fetch_tile_noItems env s latlon hres hi] at hk
        simp at hk
      · by_cases hr : env.rasterAvailable = false
        · rw [fetch_tile_noBackend env s latlon hres hi hr] at hk
          simp at hk
        · rw [Bool.not_eq_false] at hr
          cases hl : extractLoop (rankAcquisitions env.target env.items) [] with
          | none =>
            rw [fetch_tile_unauthorized_eq env s latlon hres hi hr hl] at hk
            simp at hk
          | some arrays =>
            by_cases hlen : arrays.length ≠ 18
            · rw [fetch_tile_incomplete_eq env s latlon arrays hres hi hr hl hlen] at hk
              simp at hk
            · exact ⟨arrays, rfl, not_ne_iff.mp hlen⟩

/-- An asset whose preflight probe answers HTTP 200. -/
def okAsset (d : Int) : AssetRef := { probe := some 200, data := d }

/-- A Sentinel-2 acquisition carrying all six required bands. -/
def okItem : Item :=
  { coll := "HLSS30.v2.0", dt := some 0,
    assets := [("B02", okAsset 1), ("B03", okAsset 2), ("B04", okAsset 3),
               ("B8A", okAsset 4), ("B11", okAsset 5), ("B12", okAsset 6)] }

/-- A baseline input state with a parseable explicit coordinate. -/
def st0 : AppState :=
  { input_lat := "1", input_lon := "2", input_address := "",
    date_str := "2023-06-01", fetch_status := "", tile_path := "",
    preview_png := "" }

/-- A single fully-readable acquisition: the loop yields 6 arrays, not
18. -/
def env6 : FetchEnv :=
  { geocode := none, items := [okItem], target := 0, rasterAvailable := true,
    previewOk := true }

/-- C1 witness: one complete acquisition yields a 6-array stack, the
pipeline reports "got 6" and writes nothing. -/
theorem fetch_tile_bandstack_witness :
    (fetch_tile env6 st0).1.fetch_status = incompleteMsg 6 ∧
    (fetch_tile env6 st0).2 = [] :=
  (fetch_tile_bandstack env6 st0).2.1 (1, 2) [1, 2, 3, 4, 5, 6]
    (by decide) (by decide) rfl (by decide) (by decide)

/-- C4: a preflight probe answering HTTP 401 or 403 aborts the entire
extraction immediately: the abort is independent of the remaining bands
of the acquisition and of all following acquisitions (the result is
`none` for every such continuation, so nothing further is attempted and
nothing is retried), and the pipeline then returns the unauthorized
status, writes no raster or preview file, and leaves the output paths
unchanged. -/
theorem unauthorized_aborts (env : FetchEnv) (s : AppState) :
    (∀ (a : AssetRef) (rest : List AssetRef) (arrays : List Int),
      (a.probe = some 401 ∨ a.probe = some 403) →
      readBands (a :: rest) arrays = none) ∧
    (∀ (it : Item) (refs : List AssetRef) (rest : List Item) (arrays : List Int),
      itemRefs it = Sum.inr refs → readBands refs arrays = none →
      extractLoop (it :: rest) arrays = none) ∧
    (∀ (latlon : ℚ × ℚ),
      resolveCoord s.input_lat s.input_lon s.input_address env.geocode = some latlon →
      env.items ≠ [] → env.rasterAvailable = true →
      extractLoop (rankAcquisitions env.target env.items) [] = none →
      (fetch_tile env s).1.fetch_status = unauthorizedMsg ∧
      (fetch_tile env s).2 = [] ∧
      (fetch_tile env s).1.tile_path = s.tile_path ∧
      (fetch_tile env s).1.preview_png = s.preview_png) := by
  refine ⟨readBands_unauthorized, extractLoop_unauthorized, ?_⟩
  intro latlon hres hi hr hl
  obtain ⟨hA, hD, hT, hP, hS⟩ := echoGeocode_fields env s
  rw [fetch_tile_unauthorized_eq env s latlon hres hi hr hl]
  exact ⟨rfl, rfl, hT, hP⟩

/-- A Sentinel-2 acquisition whose first band's preflight answers 403. -/
def badItem : Item :=
  { coll := "HLSS30.v2.0", dt := some 0,
    assets := [("B02", { probe := some 403, data := 1 }), ("B03", okAsset 2),
               ("B04", okAsset 3), ("B8A", okAsset 4), ("B11", okAsset 5),
               ("B12", okAsset 6)] }

/-- An environment whose only acquisition hits the 403 preflight. -/
def envAuth : FetchEnv :=
  { geocode := none, items := [badItem], target := 0, rasterAvailable := true,
    previewOk := true }

/-- C4 witness: the first probe answering 403 yields the unauthorized
status with no file written and untouched output paths. -/
theorem unauthorized_aborts_witness :
    (fetch_tile envAuth st0).1.fetch_status = unauthorizedMsg ∧
    (fetch_tile envAuth st0).2 = [] ∧
    (fetch_tile envAuth st0).1.tile_path = st0.tile_path ∧
    (fetch_tile envAuth st0).1.preview_png = st0.preview_png :=
  (unauthorized_aborts envAuth st0).2.2 (1, 2) (by decide) (by decide) rfl (by decide)

/-- The environment for the C10 witness: search finds nothing. -/
def envNoItems : FetchEnv :=
  { geocode := none, items := [], target := 0, rasterAvailable := true,
    previewOk := true }

/-- C10 witness: on the empty-search failure path the output-path fields
survive unchanged and nothing is written. -/
theorem fetch_tile_frame_witness :
    (fetch_tile envNoItems st0).1.tile_path = st0.tile_path ∧
    (fetch_tile envNoItems st0).1.preview_png = st0.preview_png ∧
    (fetch_tile envNoItems st0).2 = [] :=
  (fetch_tile_frame envNoItems st0).1 (by decide)
